import Mathlib

/-!
Verification of the thelastword word-duel client.

Shallow embedding of the core of the repository:

* TalkJSService (src/src/game/services/TalkJSService.js, second revision,
  lines 561-1152): turn arbitration, the combat ledger (health state),
  sendMessage, and the subscribeMessages inbound handler.
* MainMenu.createAnimatedTextBox (src/src/game/scenes/MainMenu.js,
  lines 106-249): the motion-path build, the moveType dispatch, and the
  damage hookup on tween completion.
* TextBoxCreator (src/unnamed/part_001, the revision contemporaneous with
  the combat MainMenu: it honours options.effect and returns the emerge
  tween): animateTextBox and the particle-effect configurations.

JavaScript numbers are modelled as ℚ (all arithmetic used is exact), JS
falsy-defaulting (v || d) on numbers as jsNumOr, and the random draw
Math.random() as an explicit rand : ℚ argument threaded into the one
place the build reads it (the neutral branch of the path build). The
string operations the code uses (trim, lowercasing, the sender-name
regex) are modelled on the character list of the string so that they
compute by kernel reduction.
-/

namespace TheLastWord

/-- Whitespace characters removed by the JS trim used here. -/
def jsWhitespace (c : Char) : Bool :=
  c = ' ' || c = '\t' || c = '\n' || c = '\r'

/-- Model of String.prototype.trim on the character list. -/
def trimChars (cs : List Char) : List Char :=
  ((cs.dropWhile jsWhitespace).reverse.dropWhile jsWhitespace).reverse

/-- Model of the JS test `!message.trim()`: true when the trimmed message
is empty. -/
def jsBlank (s : String) : Bool :=
  (trimChars s.data).isEmpty

/-- Lowercase one ASCII character (model of toLowerCase for the effect
names used by the code). -/
def lowerChar (c : Char) : Char :=
  if 'A' ≤ c && c ≤ 'Z' then Char.ofNat (c.toNat + 32) else c

/-- Model of String.prototype.toLowerCase on the character list. -/
def strToLower (s : String) : String :=
  String.mk (s.data.map lowerChar)

/-- The characters before the first colon, or none when the string has no
colon (the group captured by the lazy regex `(.*?):`). -/
def beforeColon : List Char → Option (List Char)
  | [] => none
  | c :: cs => if c = ':' then some [] else (beforeColon cs).map (c :: ·)

/-- Model of the JS test `v || d` on an (optional) number: undefined,
null and 0 are falsy and give the default. -/
def jsNumOr (v : Option ℚ) (d : ℚ) : ℚ :=
  match v with
  | none => d
  | some x => if x = 0 then d else x

/-- Move classification produced by the Gemini schema
(moveType: enum of attack, defense, neutral). -/
inductive MoveType
  | attack
  | defense
  | neutral
deriving DecidableEq

/-- One entry of the descriptor animationPath (relative offsets; duration
and rotation are optional in the schema). -/
structure PathPoint where
  x : ℚ
  y : ℚ
  duration : Option ℚ
  rotation : Option ℚ
deriving DecidableEq

/-- The effect descriptor carried in a message custom.effects field (the
fields the core reads; visual colour fields are not consumed by the path
build or the ledger and are omitted). Fields are optional because the
descriptor is externally produced JSON. -/
structure EffectsData where
  damage : Option ℚ
  moveType : Option MoveType
  effect : Option String
  fontSize : Option ℚ
  animationPath : List PathPoint
deriving DecidableEq

/-- The fixed neutral fallback descriptor returned by
processMessageThroughAPI when the Gemini call fails
(TalkJSService.js lines 966-982). -/
def geminiFallback : EffectsData :=
  { damage := some 0
    moveType := some .neutral
    effect := none
    fontSize := some 28
    animationPath := [⟨0, 0, some 1500, some 0⟩] }

/-- Embedding of processMessageThroughAPI: the API either yields a
descriptor or the call fails and the fixed neutral fallback is
substituted (the internal try/catch never lets a failure escape). -/
def processMessageThroughAPI (apiResponse : Option EffectsData) : EffectsData :=
  apiResponse.getD geminiFallback

/-- The mutable state of a TalkJSService instance (constructor fields,
TalkJSService.js lines 561-579). conversationInitialized stands for
this.conversation being non-null; turnCallbackSet for a registered
turnChangeCallback. -/
structure ServiceState where
  conversationInitialized : Bool
  currentUserId : String
  otherUserId : String
  isMyTurn : Bool
  turnCallbackSet : Bool
  processedMessages : List String
  conversationHistory : List (String × String)
  lastMessageSenderId : Option String
  myHealth : ℚ
  opponentHealth : ℚ
  maxHealth : ℚ
deriving DecidableEq

/-- The TalkJSService constructor: isMyTurn = true unconditionally,
health 100/100/100. -/
def newService : ServiceState :=
  { conversationInitialized := false
    currentUserId := ""
    otherUserId := ""
    isMyTurn := true
    turnCallbackSet := false
    processedMessages := []
    conversationHistory := []
    lastMessageSenderId := none
    myHealth := 100
    opponentHealth := 100
    maxHealth := 100 }

/-- The identity-setting part of TalkJSService.initialize: the user id
comes from the user URL parameter, defaulting to alice; the opponent is
the other hardcoded participant; the conversation is created. initialize
does not touch isMyTurn. -/
def initService (urlUser : Option String) (withTurnCallback : Bool) : ServiceState :=
  let uid := urlUser.getD "alice"
  { newService with
      currentUserId := uid
      otherUserId := if uid = "alice" then "bob" else "alice"
      conversationInitialized := true
      turnCallbackSet := withTurnCallback }

/-- Embedding of TalkJSService.canSendMessage (lines 1052-1054). -/
def canSendMessage (s : ServiceState) : Bool :=
  s.isMyTurn

/-- Embedding of TalkJSService.dealDamage (lines 1072-1092): subtract and
clamp at 0 with Math.max. There is no clamp against maxHealth. -/
def dealDamage (s : ServiceState) (damage : ℚ) (toOpponent : Bool) : ServiceState :=
  if toOpponent then
    { s with opponentHealth := max 0 (s.opponentHealth - damage) }
  else
    { s with myHealth := max 0 (s.myHealth - damage) }

/-- Embedding of TalkJSService.heal (lines 1099-1114): add and clamp at
maxHealth with Math.min. There is no clamp against 0. -/
def heal (s : ServiceState) (amount : ℚ) (toSelf : Bool) : ServiceState :=
  if toSelf then
    { s with myHealth := min s.maxHealth (s.myHealth + amount) }
  else
    { s with opponentHealth := min s.maxHealth (s.opponentHealth + amount) }

/-- Embedding of TalkJSService.resetHealth (lines 1131-1142). -/
def resetHealth (s : ServiceState) : ServiceState :=
  { s with myHealth := s.maxHealth, opponentHealth := s.maxHealth }

/-- One combat-ledger call. -/
inductive LedgerOp
  | deal (amount : ℚ) (toOpponent : Bool)
  | heal (amount : ℚ) (toSelf : Bool)
deriving DecidableEq

/-- Apply one ledger call to the service state. -/
def applyLedgerOp (s : ServiceState) (op : LedgerOp) : ServiceState :=
  match op with
  | .deal amount toOpponent => dealDamage s amount toOpponent
  | .heal amount toSelf => heal s amount toSelf

/-- Run a sequence of ledger calls in order. -/
def runLedger (s : ServiceState) (ops : List LedgerOp) : ServiceState :=
  ops.foldl applyLedgerOp s

/-- The amount argument of a ledger call. -/
def ledgerAmount : LedgerOp → ℚ
  | .deal amount _ => amount
  | .heal amount _ => amount

/-- The health invariant from the spec: both pools stay within
0 .. maxHealth. -/
def healthInv (s : ServiceState) : Prop :=
  0 ≤ s.myHealth ∧ s.myHealth ≤ s.maxHealth ∧
    0 ≤ s.opponentHealth ∧ s.opponentHealth ≤ s.maxHealth

instance (s : ServiceState) : Decidable (healthInv s) := by
  unfold healthInv; infer_instance

/-- One ledger call with a non-negative amount preserves the health
invariant. -/
theorem healthInv_applyLedgerOp (s : ServiceState) (op : LedgerOp)
    (hs : healthInv s) (hop : 0 ≤ ledgerAmount op) : healthInv (applyLedgerOp s op) := by
  obtain ⟨h1, h2, h3, h4⟩ := hs
  have hmax : (0 : ℚ) ≤ s.maxHealth := le_trans h1 h2
  rcases op with ⟨a, t⟩ | ⟨a, t⟩ <;>
    simp only [ledgerAmount] at hop <;>
    rcases t with _ | _ <;>
    simp only [applyLedgerOp, dealDamage, heal, Bool.false_eq_true, reduceIte]
  · exact ⟨le_max_left _ _, max_le hmax (by linarith), h3, h4⟩
  · exact ⟨h1, h2, le_max_left _ _, max_le hmax (by linarith)⟩
  · exact ⟨h1, h2, le_min hmax (by linarith), min_le_left _ _⟩
  · exact ⟨le_min hmax (by linarith), min_le_left _ _, h3, h4⟩

/-- A sequence of non-negative ledger calls preserves the health
invariant. -/
theorem healthInv_runLedger (ops : List LedgerOp) (s : ServiceState)
    (hs : healthInv s) (hops : ∀ op ∈ ops, 0 ≤ ledgerAmount op) :
    healthInv (runLedger s ops) := by
  induction ops generalizing s with
  | nil => exact hs
  | cons op rest ih =>
      simp only [runLedger, List.foldl_cons] at *
      exact ih (applyLedgerOp s op)
        (healthInv_applyLedgerOp s op hs (hops op (List.mem_cons_self op rest)))
        (fun o ho => hops o (List.mem_cons_of_mem op ho))

/-- The value sendMessage returns: null, the NOT_YOUR_TURN error object,
or the processed descriptor. -/
inductive SendResult
  | nullResult
  | notYourTurn
  | processed (effects : EffectsData)
deriving DecidableEq

/-- One message handed to the transport (conversation.send): the text and
the optional custom.effects payload. -/
structure Transmission where
  text : String
  effects : Option EffectsData
deriving DecidableEq

/-- Everything observable about one sendMessage call: its return value,
the service state afterwards, the messages actually handed to the
transport, and the values passed to the turn-change callback. -/
structure SendOutcome where
  result : SendResult
  state : ServiceState
  sent : List Transmission
  turnCallbacksFired : List Bool
deriving DecidableEq

/-- Embedding of TalkJSService.sendMessage (lines 991-1046). apiResponse
is the Gemini response (none when the API call fails, in which case
processMessageThroughAPI substitutes the neutral fallback); sendThrows
models the first conversation.send throwing, which lands in the catch
block: resend the plain text, still flip the turn, still fire the
callback, return null. -/
def sendMessage (s : ServiceState) (message : String) (processWithAPI : Bool)
    (apiResponse : Option EffectsData) (sendThrows : Bool) : SendOutcome :=
  if !s.conversationInitialized || jsBlank message then
    { result := .nullResult, state := s, sent := [], turnCallbacksFired := [] }
  else if !s.isMyTurn then
    { result := .notYourTurn, state := s, sent := [], turnCallbacksFired := [] }
  else
    let processedData : Option EffectsData :=
      if processWithAPI then some (processMessageThroughAPI apiResponse) else none
    if sendThrows then
      { result := .nullResult
        state := { s with isMyTurn := false }
        sent := [{ text := message, effects := none }]
        turnCallbacksFired := if s.turnCallbackSet then [false] else [] }
    else
      { result :=
          match processedData with
          | some d => .processed d
          | none => .nullResult
        state := { s with isMyTurn := false }
        sent := [{ text := message, effects := processedData }]
        turnCallbacksFired := if s.turnCallbackSet then [false] else [] }

/-- An inbound message from the transport stream: unique id, optional
sender (m.sender?.id and m.sender?.name), plaintext, and the parsed
custom.effects descriptor (none when absent or unparsable). -/
structure InboundMessage where
  id : String
  senderId : Option String
  senderName : Option String
  plaintext : String
  effects : Option EffectsData
deriving DecidableEq

/-- Everything observable about processing one inbound message in the
subscribeMessages handler: the state afterwards, the (text, effects)
pairs handed to the message callback, and the values passed to the
turn-change callback. -/
structure InboundOutcome where
  state : ServiceState
  delivered : List (String × Option EffectsData)
  turnCallbacksFired : List Bool
deriving DecidableEq

/-- The per-message body of the subscribeMessages handler
(TalkJSService.js lines 639-689): duplicate-id filter, history push
capped at maxHistoryLength = 10, turn derivation from the sender identity
(isMyTurn becomes senderId !== currentUserId), turn-change callback only
when the turn actually changed, and delivery of (text, effects) to the
message callback. -/
def handleInbound (s : ServiceState) (m : InboundMessage) : InboundOutcome :=
  if s.processedMessages.contains m.id then
    { state := s, delivered := [], turnCallbacksFired := [] }
  else
    let senderName := m.senderName.getD "System"
    let messageText := senderName ++ ": " ++ m.plaintext
    let pushed := s.conversationHistory ++ [(senderName, m.plaintext)]
    let s1 := { s with
      processedMessages := m.id :: s.processedMessages
      conversationHistory := if pushed.length > 10 then pushed.drop 1 else pushed }
    match m.senderId with
    | none =>
        { state := s1
          delivered := [(messageText, m.effects)]
          turnCallbacksFired := [] }
    | some sid =>
        let wasMyTurn := s1.isMyTurn
        let newTurn : Bool := sid != s1.currentUserId
        { state := { s1 with lastMessageSenderId := some sid, isMyTurn := newTurn }
          delivered := [(messageText, m.effects)]
          turnCallbacksFired :=
            if s1.turnCallbackSet && wasMyTurn != newTurn then [newTurn] else [] }

/-- The turn label of the spec: whose turn is next, from the local client
point of view. -/
inductive TurnLabel
  | mine
  | theirs
deriving DecidableEq

/-- The turn label exposed by the service (getTurnState). -/
def currentTurnLabel (s : ServiceState) : TurnLabel :=
  if s.isMyTurn then .mine else .theirs

/-- A 2D screen position. -/
structure Vec2 where
  x : ℚ
  y : ℚ
deriving DecidableEq

/-- The fixed anchor of Alice (MainMenu.js line 27): always the left
side, independent of which client is viewing. w and h are the window
inner width and height. -/
def alicePosition (w h : ℚ) : Vec2 :=
  ⟨w / 4, h - h / 3⟩

/-- The fixed anchor of Bob (MainMenu.js line 28): always the right
side. -/
def bobPosition (w h : ℚ) : Vec2 :=
  ⟨w - w / 4, h - h / 3⟩

/-- One compiled waypoint of the built animation path: absolute position,
duration, rotation. -/
structure Waypoint where
  x : ℚ
  y : ℚ
  duration : ℚ
  rotation : ℚ
deriving DecidableEq

/-- Sender-name extraction from the label (MainMenu.js lines 110-111):
the lazy regex group takes everything before the first colon, trimmed; no
colon gives Unknown. -/
def extractSenderName (label : String) : String :=
  match beforeColon label.data with
  | none => "Unknown"
  | some cs => String.mk (trimChars cs)

/-- MainMenu.js line 126: the sender is Alice iff the extracted name is
Alice or alice. -/
def isAliceSender (senderName : String) : Bool :=
  senderName == "Alice" || senderName == "alice"

/-- MainMenu.js lines 114-116: whether the message is the local player
own message, for the damage direction. -/
def isMyMessage (currentUserId senderName : String) : Bool :=
  senderName == currentUserId
    || (currentUserId == "alice" && senderName == "Alice")
    || (currentUserId == "bob" && senderName == "Bob")

/-- The JS default `effectsData?.moveType || quoted-neutral`
(MainMenu.js lines 141, 148). -/
def moveTypeOf (ed : Option EffectsData) : MoveType :=
  (ed.bind EffectsData.moveType).getD .neutral

/-- The JS default `effectsData?.damage || 0` (MainMenu.js lines
140, 147). -/
def damageOf (ed : Option EffectsData) : ℚ :=
  jsNumOr (ed.bind EffectsData.damage) 0

/-- The first animationPath entry of the descriptor, if any. -/
def firstDescriptorPoint (ed : Option EffectsData) : Option PathPoint :=
  (ed.map EffectsData.animationPath).getD [] |>.head?

/-- The two-stage animation path built by createAnimatedTextBox
(MainMenu.js lines 166-204). Stage 1 always moves to the sender anchor in
1000ms. Stage 2 depends on moveType: attack goes to the target anchor
plus the first stated relative offset of the descriptor in 1800ms;
defense stays at the sender x and moves by the y of the first offset
(JS `|| -50`, so a zero offset also falls back to -50) in 1500ms; neutral
drifts up with a random horizontal offset (rand is the Math.random draw)
in 2000ms. -/
def buildAnimationPath (w h rand : ℚ) (senderName : String)
    (ed : Option EffectsData) : List Waypoint :=
  let senderPos := if isAliceSender senderName then alicePosition w h else bobPosition w h
  let targetPos := if isAliceSender senderName then bobPosition w h else alicePosition w h
  let stage1 : Waypoint := ⟨senderPos.x, senderPos.y, 1000, 0⟩
  match moveTypeOf ed with
  | .attack =>
      let off := (firstDescriptorPoint ed).getD ⟨0, 0, none, none⟩
      let rot := jsNumOr ((firstDescriptorPoint ed).bind PathPoint.rotation) 0
      [stage1, ⟨targetPos.x + off.x, targetPos.y + off.y, 1800, rot⟩]
  | .defense =>
      let offY := jsNumOr ((firstDescriptorPoint ed).map PathPoint.y) (-50)
      [stage1, ⟨senderPos.x, senderPos.y + offY, 1500, 0⟩]
  | .neutral =>
      [stage1, ⟨senderPos.x + (rand * 200 - 100), senderPos.y - 150, 2000, 0⟩]

/-- Embedding of TextBoxCreator.animateTextBox (src/unnamed/part_001
lines 149-173): returns null on an empty path, otherwise the phase-1
emerge tween. A tween handle is modelled by the index of the waypoint
whose arrival completes that tween; the emerge tween targets
pathPoints[0], so its complete event fires when waypoint 0 is reached.
The later legs are driven by chained tweens created in
createPathAnimation, to which no handle is returned. -/
def animateTextBox (pathPoints : List Waypoint) : Option Nat :=
  if pathPoints.isEmpty then none else some 0

/-- A resolved particle emitter configuration (src/unnamed/part_001,
createFireEffect .. createSmokeEffect). -/
structure EmitterConfig where
  speedMin : ℚ
  speedMax : ℚ
  angleMin : ℚ
  angleMax : ℚ
  scaleStart : ℚ
  scaleEnd : ℚ
  lifespan : ℚ
  frequency : ℚ
  quantity : ℚ
  tint : List ℕ
  gravityY : ℚ
deriving DecidableEq

/-- The createFireEffect emitter parameters (part_001 lines 252-262). -/
def fireEmitter : EmitterConfig :=
  ⟨40, 80, 250, 290, 5/2, 1/2, 1200, 25, 3, [0xcc0000, 0xff3300, 0xff6600, 0xff9900], 0⟩

/-- The createIceEffect emitter parameters (part_001 lines 284-295). -/
def iceEmitter : EmitterConfig :=
  ⟨20, 50, 250, 290, 2, 3/10, 1500, 30, 2, [0x0099cc, 0x00ccff, 0x99ffff, 0xccffff], -50⟩

/-- The createPoisonEffect emitter parameters (part_001 lines 317-328). -/
def poisonEmitter : EmitterConfig :=
  ⟨10, 30, 0, 360, 3/2, 3/10, 2000, 40, 2, [0x006600, 0x00cc00, 0x66ff33, 0x99ff66], -20⟩

/-- The createSmokeEffect emitter parameters (part_001 lines 348-359). -/
def smokeEmitter : EmitterConfig :=
  ⟨20, 40, 260, 280, 2, 3, 2000, 50, 2, [0x444444, 0x666666, 0x888888, 0xaaaaaa], -30⟩

/-- Embedding of TextBoxCreator.createParticleEffect (part_001 lines
212-228): dispatch on the lowercased effect type; unknown types yield no
emitter. -/
def createParticleEffect (effectType : String) : Option EmitterConfig :=
  match strToLower effectType with
  | "fire" => some fireEmitter
  | "ice" => some iceEmitter
  | "poison" => some poisonEmitter
  | "smoke" => some smokeEmitter
  | _ => none

/-- MainMenu.js lines 151-153: options.effect is set only when the effect
field of the descriptor is truthy and is not the four-character string
null. -/
def effectOption (ed : Option EffectsData) : Option String :=
  match ed.bind EffectsData.effect with
  | none => none
  | some e => if e = "" || e = "null" then none else some e

/-- A scheduled ledger mutation: dealDamage(amount, toOpponent) fired at
the completion of the tween that reaches waypoint atWaypoint. -/
structure DamageEvent where
  amount : ℚ
  toOpponent : Bool
  atWaypoint : Nat
deriving DecidableEq

/-- The renderable request produced by MainMenu.createAnimatedTextBox
(MainMenu.js lines 106-249) for one inbound message: the built path, the
resolved particle emitter, the tween handle returned by the creator, and
the damage events registered on it. The damage listener is attached with
box.tween.on(complete, ...) only in the attack branch and only when
box.tween is non-null (lines 212-228); box.tween is the emerge tween
returned by animateTextBox. -/
structure AnimationRequest where
  senderName : String
  moveType : MoveType
  animationPath : List Waypoint
  particles : Option EmitterConfig
  tween : Option Nat
  damageEvents : List DamageEvent
deriving DecidableEq

/-- Embedding of MainMenu.createAnimatedTextBox: extract the sender from
the label, resolve damage and moveType, build the two-stage path, create
the text box (whose tween is the emerge tween), and for attacks register
exactly one dealDamage(damage, isMyMessage) on the completion of that
tween. Defense and neutral moves register no ledger mutation, only
fade-out timers. -/
def createAnimatedTextBox (viewerUserId : String) (w h rand : ℚ)
    (label : String) (ed : Option EffectsData) : AnimationRequest :=
  let senderName := extractSenderName label
  let mine := isMyMessage viewerUserId senderName
  let dmg := damageOf ed
  let mt := moveTypeOf ed
  let path := buildAnimationPath w h rand senderName ed
  let tween := animateTextBox path
  { senderName := senderName
    moveType := mt
    animationPath := path
    particles :=
      match effectOption ed with
      | some t => createParticleEffect t
      | none => none
    tween := tween
    damageEvents :=
      match mt, tween with
      | .attack, some i => [⟨dmg, mine, i⟩]
      | _, _ => [] }

/-- Apply the scheduled damage events of an animation to the ledger (the
dealDamage calls from the tween-completion handler). -/
def applyDamageEvents (s : ServiceState) (evs : List DamageEvent) : ServiceState :=
  evs.foldl (fun st e => dealDamage st e.amount e.toOpponent) s

/-- The fixed stage-2 leg duration the build uses, by move type
(MainMenu.js lines 184, 193, 201). -/
def stageTwoDuration : MoveType → ℚ
  | .attack => 1800
  | .defense => 1500
  | .neutral => 2000

/-- Modelled from the spec: the duration clamp band the spec states for
attack legs (300-2000 ms per leg). Stated only to compare the claim
against the build of the code. -/
def specClampAttack (d : ℚ) : ℚ :=
  max 300 (min 2000 d)

/-- The fixed anchor of the opponent of the sender (Alice always left,
Bob always right), as the claim states it. -/
def opponentAnchor (senderName : String) (w h : ℚ) : Vec2 :=
  if isAliceSender senderName then bobPosition w h else alicePosition w h

/-- C1 fails as stated: quantified over all integer amounts the
operations accept, a dealDamage of amount -1 from the initial 100/100/100
state pushes opponentHealth to 101 above maxHealth (the code clamps only
at 0, never against maxHealth). -/
theorem c1_counterexample :
    ¬ healthInv (runLedger newService [LedgerOp.deal (-1) true]) := by
  intro h
  have h1 := h.2.2.2
  simp only [runLedger, List.foldl_cons, List.foldl_nil, applyLedgerOp, dealDamage,
    newService, reduceIte] at h1
  have h2 : (100 : ℚ) - (-1) ≤ 100 := le_trans (le_max_right _ _) h1
  norm_num at h2

/-- C1 (amended): for every sequence of dealDamage and heal calls with
non-negative amounts starting from the initial 100/100/100 state, both
health pools satisfy the invariant 0 ≤ health ≤ maxHealth after every
call. -/
theorem c1_health_invariant_nonneg_amounts (ops : List LedgerOp)
    (h : ∀ op ∈ ops, 0 ≤ ledgerAmount op) (n : ℕ) :
    healthInv (runLedger newService (ops.take n)) :=
  healthInv_runLedger (ops.take n) newService (by norm_num [healthInv, newService])
    (fun op hop => h op (List.take_subset n ops hop))

theorem c1_witness :
    (∀ op ∈ [LedgerOp.deal 30 true, LedgerOp.deal 80 true], 0 ≤ ledgerAmount op) ∧
      healthInv (runLedger newService ([LedgerOp.deal 30 true, LedgerOp.deal 80 true].take 2)) :=
  ⟨by decide,
    c1_health_invariant_nonneg_amounts [LedgerOp.deal 30 true, LedgerOp.deal 80 true]
      (by decide) 2⟩

/-- C2 fails as stated: a sendMessage call made while canSendMessage() is
false but with a blank message returns null, not the NOT_YOUR_TURN error,
because the blank-message and no-conversation guard runs before the turn
check. -/
theorem c2_counterexample :
    canSendMessage { initService (some "alice") true with isMyTurn := false } = false ∧
      (sendMessage { initService (some "alice") true with isMyTurn := false }
          "" true none false).result ≠ SendResult.notYourTurn := by
  decide

/-- C2 (amended): every sendMessage call made while canSendMessage() is
false leaves the service state (turn, health) unchanged, hands nothing to
the transport (so the receive path that creates animations is never
triggered), fires no turn callback, and returns the NOT_YOUR_TURN error
when the conversation is initialized and the message is non-blank;
otherwise it returns null. -/
theorem c2_blocked_send_no_mutation (s : ServiceState) (message : String)
    (processWithAPI : Bool) (apiResponse : Option EffectsData) (sendThrows : Bool)
    (h : s.isMyTurn = false) :
    (sendMessage s message processWithAPI apiResponse sendThrows).state = s ∧
    (sendMessage s message processWithAPI apiResponse sendThrows).sent = [] ∧
    (sendMessage s message processWithAPI apiResponse sendThrows).turnCallbacksFired = [] ∧
    (sendMessage s message processWithAPI apiResponse sendThrows).result =
      (if s.conversationInitialized && !(jsBlank message)
        then SendResult.notYourTurn else SendResult.nullResult) := by
  unfold sendMessage
  rcases hc : s.conversationInitialized with _ | _ <;>
    rcases ht : jsBlank message with _ | _ <;>
    simp [h, hc, ht]

theorem c2_witness :
    ({ initService (some "alice") true with isMyTurn := false } : ServiceState).isMyTurn
        = false ∧
      (sendMessage { initService (some "alice") true with isMyTurn := false }
          "hi" true none false).result = SendResult.notYourTurn := by
  refine ⟨rfl, ?_⟩
  have h := c2_blocked_send_no_mutation
    { initService (some "alice") true with isMyTurn := false } "hi" true none false rfl
  rw [h.2.2.2]
  decide

/-- C3: the code applies attack damage exactly once, but at the
completion of the emerge tween, which is waypoint index 0 (the sender
anchor), not after the final waypoint (index 1) of the two-waypoint
attack path. Evaluated at the failing input: an inbound attack message
from Bob with damage 15 seen by the alice client. -/
theorem c3_attack_damage_fires_at_first_waypoint :
    (createAnimatedTextBox "alice" 1600 900 0 "Bob: fireball"
        (some
          { damage := some 15, moveType := some .attack, effect := some "fire",
            fontSize := some 32,
            animationPath := [⟨0, -50, some 300, some 2⟩,
                              ⟨0, 0, some 500, some 0⟩] })).damageEvents
        = [⟨15, false, 0⟩] ∧
      (createAnimatedTextBox "alice" 1600 900 0 "Bob: fireball"
        (some
          { damage := some 15, moveType := some .attack, effect := some "fire",
            fontSize := some 32,
            animationPath := [⟨0, -50, some 300, some 2⟩,
                              ⟨0, 0, some 500, some 0⟩] })).animationPath.length = 2 := by
  decide

/-- C4 fails as stated: the spec says the attack path terminates at the
opponent anchor plus the FINAL stated relative offset of the descriptor,
but the build reads only animationPath[0] and discards every later
entry. At the fireball-style descriptor with stated offsets (0, -50)
then (0, 0) — final stated offset (0, 0) — the built final waypoint is
the opponent anchor plus (0, -50), not the anchor plus (0, 0). -/
theorem c4_counterexample :
    (({ damage := some 15, moveType := some .attack, effect := some "fire",
        fontSize := some 32,
        animationPath := [⟨0, -50, some 300, some 2⟩,
                          ⟨0, 0, some 500, some 0⟩] }
          : EffectsData).animationPath.getLast?.map (fun p => (p.x, p.y))) = some (0, 0) ∧
      ((createAnimatedTextBox "alice" 1600 900 0 "Bob: fireball"
          (some
            { damage := some 15, moveType := some .attack, effect := some "fire",
              fontSize := some 32,
              animationPath := [⟨0, -50, some 300, some 2⟩,
                                ⟨0, 0, some 500, some 0⟩] })).animationPath.getLast?.map
          (fun q => (q.x, q.y)))
        ≠ some ((opponentAnchor (extractSenderName "Bob: fireball") 1600 900).x + 0,
                (opponentAnchor (extractSenderName "Bob: fireball") 1600 900).y + 0) := by
  have hs : extractSenderName "Bob: fireball" = "Bob" := by decide
  have ha : isAliceSender "Bob" = false := by decide
  constructor
  · rfl
  · intro h
    simp [createAnimatedTextBox, buildAnimationPath, moveTypeOf, firstDescriptorPoint,
      jsNumOr, opponentAnchor, hs, ha, alicePosition, bobPosition] at h

/-- C4 (amended): for every attack descriptor with at least one stated
waypoint, the built path is the same whichever client performs the build
(and for any random draw), and its final waypoint is the fixed anchor of
the opponent of the sender plus the FIRST stated relative offset of the
descriptor (the build reads only animationPath[0]; all later stated
offsets are discarded). -/
theorem c4_attack_final_waypoint (viewer1 viewer2 : String) (w h rand1 rand2 : ℚ)
    (label : String) (ed : EffectsData) (p : PathPoint)
    (hmt : ed.moveType = some .attack)
    (hp : ed.animationPath.head? = some p) :
    (createAnimatedTextBox viewer1 w h rand1 label (some ed)).animationPath
        = (createAnimatedTextBox viewer2 w h rand2 label (some ed)).animationPath ∧
      ((createAnimatedTextBox viewer1 w h rand1 label (some ed)).animationPath.getLast?.map
          (fun q => (q.x, q.y)))
        = some ((opponentAnchor (extractSenderName label) w h).x + p.x,
                (opponentAnchor (extractSenderName label) w h).y + p.y) := by
  have hmt2 : moveTypeOf (some ed) = .attack := by
    simp [moveTypeOf, hmt]
  have hfp : firstDescriptorPoint (some ed) = some p := by
    simp [firstDescriptorPoint, hp]
  constructor
  · simp [createAnimatedTextBox, buildAnimationPath, hmt2, hfp]
  · simp [createAnimatedTextBox, buildAnimationPath, hmt2, hfp, opponentAnchor]

theorem c4_witness :
    ({ damage := some 10, moveType := some .attack, effect := none, fontSize := none,
       animationPath := [⟨5, -7, some 400, none⟩] } : EffectsData).moveType
        = some MoveType.attack ∧
      ({ damage := some 10, moveType := some .attack, effect := none, fontSize := none,
         animationPath := [⟨5, -7, some 400, none⟩] } : EffectsData).animationPath.head?
        = some ⟨5, -7, some 400, none⟩ ∧
      ((createAnimatedTextBox "alice" 1600 900 0 "Alice: zap"
          (some
            { damage := some 10, moveType := some .attack, effect := none,
              fontSize := none,
              animationPath := [⟨5, -7, some 400, none⟩] })).animationPath.getLast?.map
          (fun q => (q.x, q.y)))
        = some ((opponentAnchor (extractSenderName "Alice: zap") 1600 900).x + 5,
                (opponentAnchor (extractSenderName "Alice: zap") 1600 900).y + (-7)) :=
  ⟨rfl, rfl,
    (c4_attack_final_waypoint "alice" "bob" 1600 900 0 1 "Alice: zap"
      { damage := some 10, moveType := some .attack, effect := none, fontSize := none,
        animationPath := [⟨5, -7, some 400, none⟩] }
      ⟨5, -7, some 400, none⟩ rfl rfl).2⟩

/-- C5 (confirmed): after the subscribe handler processes a new inbound
message whose sender is sid, the turn label is theirs when sid is the
local participant and mine when it is the remote one. -/
theorem c5_turn_after_processing (s : ServiceState) (m : InboundMessage) (sid : String)
    (hsid : m.senderId = some sid)
    (hnew : s.processedMessages.contains m.id = false) :
    currentTurnLabel (handleInbound s m).state
      = (if sid = s.currentUserId then TurnLabel.theirs else TurnLabel.mine) := by
  unfold handleInbound
  rw [hnew]
  by_cases hc : sid = s.currentUserId <;>
    simp [hsid, currentTurnLabel, hc]

theorem c5_witness :
    (⟨"m1", some "bob", some "Bob", "hi", none⟩ : InboundMessage).senderId = some "bob" ∧
      (initService (some "alice") false).processedMessages.contains "m1" = false ∧
      currentTurnLabel
          (handleInbound (initService (some "alice") false)
            ⟨"m1", some "bob", some "Bob", "hi", none⟩).state
        = TurnLabel.mine := by
  refine ⟨rfl, rfl, ?_⟩
  have h := c5_turn_after_processing (initService (some "alice") false)
    ⟨"m1", some "bob", some "Bob", "hi", none⟩ "bob" rfl rfl
  rw [h]
  decide

/-- C6: the constructor sets isMyTurn to true unconditionally, so before
any message is observed BOTH clients report canSendMessage() as true;
there is no designated first mover, contradicting the repository file
TURN_BASED_SYSTEM.md (Alice starts with her turn, Bob waits with input
disabled). -/
theorem c6_both_clients_start_with_turn :
    canSendMessage (initService (some "alice") false) = true ∧
      canSendMessage (initService (some "bob") false) = true := by
  decide

/-- C7 fails as stated: the build ignores the waypoint durations of the
descriptor entirely. For an attack descriptor whose stated duration is
300 (inside the claimed 300-2000 band, so clamping would keep it), the
built post-first waypoint has duration fixed 1800, not
specClampAttack 300 = 300. -/
theorem c7_counterexample :
    ((buildAnimationPath 1600 900 0 "Alice"
        (some
          { damage := some 10, moveType := some .attack, effect := none,
            fontSize := none,
            animationPath := [⟨0, 0, some 300, none⟩] })).map Waypoint.duration)
      ≠ [1000, specClampAttack 300] := by
  have hs : specClampAttack 300 = 300 := by
    unfold specClampAttack
    rw [min_eq_right (by norm_num), max_self]
  have hb : ((buildAnimationPath 1600 900 0 "Alice"
      (some
        { damage := some 10, moveType := some .attack, effect := none,
          fontSize := none,
          animationPath := [⟨0, 0, some 300, none⟩] })).map Waypoint.duration)
      = [1000, 1800] := by
    simp [buildAnimationPath, moveTypeOf]
  rw [hb, hs]
  simp only [ne_eq, List.cons.injEq, and_true]
  intro hcon
  norm_num at hcon

/-- C7 (amended): the built path always has exactly two waypoints whose
durations are fixed constants: 1000ms for the first leg and, for the
second, 1800ms for attacks, 1500ms for defenses, 2000ms for neutral,
regardless of the stated durations of the descriptor; out-of-band
durations never cause the build to fail, since durations are ignored. -/
theorem c7_fixed_stage_two_durations (w h rand : ℚ) (senderName : String)
    (ed : Option EffectsData) :
    (buildAnimationPath w h rand senderName ed).map Waypoint.duration
      = [1000, stageTwoDuration (moveTypeOf ed)] := by
  unfold buildAnimationPath
  cases hmt : moveTypeOf ed <;> simp [hmt, stageTwoDuration]

/-- C8 (confirmed): an inbound message whose descriptor has moveType
defense or neutral schedules no dealDamage call at all, whatever its
damage field holds, so the ledger is left exactly as it was. -/
theorem c8_no_ledger_mutation_for_non_attack (viewer : String) (w h rand : ℚ)
    (label : String) (ed : EffectsData)
    (hmt : ed.moveType = some .defense ∨ ed.moveType = some .neutral) :
    (createAnimatedTextBox viewer w h rand label (some ed)).damageEvents = [] ∧
      ∀ s : ServiceState,
        applyDamageEvents s
          (createAnimatedTextBox viewer w h rand label (some ed)).damageEvents = s := by
  have hevs : (createAnimatedTextBox viewer w h rand label (some ed)).damageEvents = [] := by
    unfold createAnimatedTextBox
    rcases hmt with h | h <;> simp [moveTypeOf, h]
  exact ⟨hevs, fun s => by rw [hevs]; rfl⟩

theorem c8_witness :
    (({ damage := some 5, moveType := some .defense, effect := none, fontSize := none,
        animationPath := [⟨0, 0, some 1000, none⟩] } : EffectsData).moveType
        = some MoveType.defense ∨
      ({ damage := some 5, moveType := some .defense, effect := none, fontSize := none,
         animationPath := [⟨0, 0, some 1000, none⟩] } : EffectsData).moveType
        = some MoveType.neutral) ∧
      applyDamageEvents newService
          (createAnimatedTextBox "alice" 1600 900 0 "Bob: shield"
            (some
              { damage := some 5, moveType := some .defense, effect := none,
                fontSize := none,
                animationPath := [⟨0, 0, some 1000, none⟩] })).damageEvents
        = newService :=
  ⟨Or.inl rfl,
    (c8_no_ledger_mutation_for_non_attack "alice" 1600 900 0 "Bob: shield"
      { damage := some 5, moveType := some .defense, effect := none, fontSize := none,
        animationPath := [⟨0, 0, some 1000, none⟩] } (Or.inl rfl)).2 newService⟩

/-- C9 fails as stated: the neutral branch adds the random quantity
computed from Math.random() times 200 minus 100 to the x of the drift
waypoint, so two builds of the same neutral descriptor with different
random draws are not bit-identical. -/
theorem c9_counterexample :
    createAnimatedTextBox "alice" 1600 900 0 "Alice: hello"
        (some
          { damage := some 0, moveType := some .neutral, effect := none,
            fontSize := some 24, animationPath := [⟨100, 0, some 1500, some 0⟩] })
      ≠ createAnimatedTextBox "alice" 1600 900 (1/2) "Alice: hello"
        (some
          { damage := some 0, moveType := some .neutral, effect := none,
            fontSize := some 24, animationPath := [⟨100, 0, some 1500, some 0⟩] }) := by
  intro h
  have h2 := congrArg (fun r => (r.animationPath.map Waypoint.x).getLast?) h
  simp [createAnimatedTextBox, buildAnimationPath, moveTypeOf] at h2
  norm_num at h2

/-- C9 (amended): for attack and defense descriptors the build is
independent of the random draw: rebuilding with identical inputs gives a
bit-identical motion path, particle plan and damage schedule; only the
neutral branch reads the random stream. -/
theorem c9_non_neutral_build_deterministic (viewer : String) (w h rand1 rand2 : ℚ)
    (label : String) (ed : Option EffectsData)
    (hmt : moveTypeOf ed = .attack ∨ moveTypeOf ed = .defense) :
    createAnimatedTextBox viewer w h rand1 label ed
      = createAnimatedTextBox viewer w h rand2 label ed := by
  unfold createAnimatedTextBox buildAnimationPath
  rcases hmt with h | h <;> simp [h]

theorem c9_witness :
    moveTypeOf (some
        { damage := some 10, moveType := some .attack, effect := none,
          fontSize := none, animationPath := [⟨0, 0, some 400, none⟩] }) = MoveType.attack ∧
      createAnimatedTextBox "alice" 1600 900 0 "Alice: zap!"
          (some
            { damage := some 10, moveType := some .attack, effect := none,
              fontSize := none, animationPath := [⟨0, 0, some 400, none⟩] })
        = createAnimatedTextBox "alice" 1600 900 7 "Alice: zap!"
          (some
            { damage := some 10, moveType := some .attack, effect := none,
              fontSize := none, animationPath := [⟨0, 0, some 400, none⟩] }) :=
  ⟨rfl,
    c9_non_neutral_build_deterministic "alice" 1600 900 0 7 "Alice: zap!"
      (some
        { damage := some 10, moveType := some .attack, effect := none,
          fontSize := none, animationPath := [⟨0, 0, some 400, none⟩] })
      (Or.inl rfl)⟩

/-- C10 (confirmed): when the transport send throws after the turn check
passed, sendMessage lands in its catch block: it resends the plain text
(no effects payload), still sets isMyTurn to false (turn label theirs),
still fires the turn-change callback with false, and returns null; a
failed send consumes the turn of the local player. -/
theorem c10_failed_send_consumes_turn (s : ServiceState) (message : String)
    (apiResponse : Option EffectsData)
    (h1 : s.isMyTurn = true) (h2 : s.conversationInitialized = true)
    (h3 : jsBlank message = false) (h4 : s.turnCallbackSet = true) :
    (sendMessage s message true apiResponse true).result = SendResult.nullResult ∧
    (sendMessage s message true apiResponse true).state = { s with isMyTurn := false } ∧
    (sendMessage s message true apiResponse true).sent
      = [{ text := message, effects := none }] ∧
    (sendMessage s message true apiResponse true).turnCallbacksFired = [false] := by
  unfold sendMessage
  simp [h1, h2, h3, h4]

theorem c10_witness :
    (initService (some "alice") true).isMyTurn = true ∧
      (initService (some "alice") true).conversationInitialized = true ∧
      jsBlank "hi" = false ∧
      (initService (some "alice") true).turnCallbackSet = true ∧
      (sendMessage (initService (some "alice") true) "hi" true none true).state
        = { initService (some "alice") true with isMyTurn := false } ∧
      (sendMessage (initService (some "alice") true) "hi" true none true).turnCallbacksFired
        = [false] := by
  have h := c10_failed_send_consumes_turn (initService (some "alice") true) "hi" none
    rfl rfl (by decide) rfl
  exact ⟨rfl, rfl, by decide, rfl, h.2.1, h.2.2.2⟩

end TheLastWord
